import Mathlib

/-!
Shallow embedding of `main.py` from the `image-ai-analyzer` repository: a
FastAPI façade that forwards uploaded images or text to a chat-completion
provider and relays the provider's verdict.

Modelling conventions:
* Bytes are `Nat` values (`< 256` where it matters).
* JSON values decoded from a request body are the inductive `Json`
  (numbers are modelled as `Int`; no property below involves a fractional
  number).
* Python truthiness, iteration and stringification of decoded JSON values
  are modelled by `pyTruthy`, `pyIter` and `pyStr`.
* The remote provider (`client.chat.completions.create` followed by reading
  `response.choices[0].message.content`) is an abstract function from the
  completion request to `Except String String`: `Except.error e` is any
  exception raised during the call, carrying `str(e)`; `Except.ok c` is a
  successful call whose first choice has content string `c`.
* Each endpoint returns the HTTP outcome paired with the list of provider
  calls it issued, so that "zero provider calls" and "exactly one provider
  call" are statements about that trace.
* The decoding parameters `temperature=0.5` and `top_p=0.79` are floating
  point constants that no property below mentions; they are elided from
  the completion-request record.
-/

/-- JSON values as decoded from a request body. -/
inductive Json where
  | null : Json
  | bool (b : Bool) : Json
  | num (n : Int) : Json
  | str (s : String) : Json
  | arr (xs : List Json) : Json
  | obj (kvs : List (String × Json)) : Json

/-- Python truthiness (`bool(v)`) of a decoded JSON value. -/
def pyTruthy : Json → Bool
  | Json.null => false
  | Json.bool b => b
  | Json.num n => n != 0
  | Json.str s => s != ""
  | Json.arr xs => !xs.isEmpty
  | Json.obj kvs => !kvs.isEmpty

/-- Python iteration over a decoded JSON value: a string yields its
characters as one-character strings, a list yields its elements, a dict
yields its keys; other values are not iterable (`none` models the
`TypeError` that iterating them raises). -/
def pyIter : Json → Option (List Json)
  | Json.str s => some (s.data.map (fun c => Json.str (String.singleton c)))
  | Json.arr xs => some xs
  | Json.obj kvs => some (kvs.map (fun kv => Json.str kv.1))
  | _ => none

mutual
/-- Python `repr()` of a decoded JSON value (used by `str()` on containers).
String escaping inside `repr` is modelled only for quote-free strings; no
property below evaluates it on a string containing a quote. -/
def pyRepr : Json → String
  | Json.null => "None"
  | Json.bool true => "True"
  | Json.bool false => "False"
  | Json.num n => toString n
  | Json.str s => "'" ++ s ++ "'"
  | Json.arr xs => "[" ++ pyReprList xs ++ "]"
  | Json.obj kvs => "\x7b" ++ pyReprObj kvs ++ "\x7d"

/-- Comma-separated `repr` of list elements. -/
def pyReprList : List Json → String
  | [] => ""
  | [x] => pyRepr x
  | x :: rest => pyRepr x ++ ", " ++ pyReprList rest

/-- Comma-separated `repr` of dict entries. -/
def pyReprObj : List (String × Json) → String
  | [] => ""
  | [(k, v)] => "'" ++ k ++ "': " ++ pyRepr v
  | (k, v) :: rest => "'" ++ k ++ "': " ++ pyRepr v ++ ", " ++ pyReprObj rest
end

/-- Python `str()` of a decoded JSON value, as performed by f-string
interpolation in `call_gpt4_vision`. -/
def pyStr : Json → String
  | Json.str s => s
  | j => pyRepr j

/-! ### Base64 (`base64.b64encode` / the provider-side decoding) -/

/-- The standard base64 alphabet. -/
def b64Table : List Char :=
  ['A', 'B', 'C', 'D', 'E', 'F', 'G', 'H', 'I', 'J', 'K', 'L', 'M',
   'N', 'O', 'P', 'Q', 'R', 'S', 'T', 'U', 'V', 'W', 'X', 'Y', 'Z',
   'a', 'b', 'c', 'd', 'e', 'f', 'g', 'h', 'i', 'j', 'k', 'l', 'm',
   'n', 'o', 'p', 'q', 'r', 's', 't', 'u', 'v', 'w', 'x', 'y', 'z',
   '0', '1', '2', '3', '4', '5', '6', '7', '8', '9', '+', '/']

/-- Encode a 6-bit group as a base64 character. -/
def encode6 (n : Nat) : Char := b64Table.getD n '?'

/-- Decode a base64 character back to its 6-bit group. -/
def decode6 (c : Char) : Option Nat := List.findIdx? (fun x => x == c) b64Table

/-- Base64-encode a byte list, three bytes at a time, with `=` padding. -/
def encodeChunks : List Nat → List Char
  | [] => []
  | [a] => [encode6 (a / 4), encode6 (a % 4 * 16), '=', '=']
  | [a, b] => [encode6 (a / 4), encode6 (a % 4 * 16 + b / 16), encode6 (b % 16 * 4), '=']
  | a :: b :: c :: rest =>
      encode6 (a / 4) :: encode6 (a % 4 * 16 + b / 16) ::
      encode6 (b % 16 * 4 + c / 64) :: encode6 (c % 64) :: encodeChunks rest

/-- Base64-decode a character list, four characters at a time, honouring
`=` padding in the final group. -/
def decodeChunks : List Char → Option (List Nat)
  | [] => some []
  | c1 :: c2 :: c3 :: c4 :: rest =>
      match decode6 c1, decode6 c2 with
      | some d1, some d2 =>
          if c3 = '=' ∧ c4 = '=' ∧ rest = [] then
            some [d1 * 4 + d2 / 16]
          else
            match decode6 c3 with
            | some d3 =>
                if c4 = '=' ∧ rest = [] then
                  some [d1 * 4 + d2 / 16, d2 % 16 * 16 + d3 / 4]
                else
                  match decode6 c4, decodeChunks rest with
                  | some d4, some tail =>
                      some ((d1 * 4 + d2 / 16) :: (d2 % 16 * 16 + d3 / 4) ::
                            (d3 % 4 * 64 + d4) :: tail)
                  | _, _ => none
            | none => none
      | _, _ => none
  | _ => none

/-- `base64.b64encode(bs).decode("utf-8")`. -/
def b64encode (bs : List Nat) : String := String.mk (encodeChunks bs)

/-- The provider-side (simulated) base64 decoding. -/
def b64decode (s : String) : Option (List Nat) := decodeChunks s.data

/-! ### Messages and the completion request -/

/-- One part of a structured message content list. -/
inductive ContentPart where
  | text (t : String) : ContentPart
  | imageUrl (url : String) : ContentPart
deriving DecidableEq, Repr

/-- Message content: either a plain string (text endpoint) or a list of
parts (vision endpoints). -/
inductive Content where
  | str (s : String) : Content
  | parts (ps : List ContentPart) : Content
deriving DecidableEq, Repr

/-- A chat message as assembled by `main.py`. -/
structure Message where
  role : String
  content : Content
deriving DecidableEq, Repr

/-- The fixed `response_format` JSON-schema paid to every provider call. -/
def response_format : Json :=
  Json.obj [
    ("type", Json.str "json_schema"),
    ("json_schema", Json.obj [
      ("name", Json.str "content_compliance"),
      ("schema", Json.obj [
        ("type", Json.str "object"),
        ("required", Json.arr [Json.str "status", Json.str "violation_reason"]),
        ("properties", Json.obj [
          ("status", Json.obj [
            ("type", Json.str "boolean"),
            ("description", Json.str "Indicates whether the content is appropriate.")]),
          ("violation_reason", Json.obj [
            ("type", Json.str "string"),
            ("description", Json.str "Explanation of why the content violates policies and suggestions for correction.")])]),
        ("additionalProperties", Json.bool false)]),
      ("strict", Json.bool true)])]

/-- One provider call, as assembled by `create_completion`. -/
structure CompletionRequest where
  model : String
  messages : List Message
  responseFormat : Json
  maxCompletionTokens : Nat

/-- The request `create_completion` builds around a message list. -/
def mkRequest (messages : List Message) : CompletionRequest :=
  { model := "gpt-4o-mini"
    messages := messages
    responseFormat := response_format
    maxCompletionTokens := 1142 }

/-- The abstract remote provider: maps a completion request to either the
content string of its first choice or the message of the exception raised. -/
def Provider : Type := CompletionRequest → Except String String

/-- The `{"response": ...} / {"error": ...}` envelope returned by
`create_completion` and hence by every endpoint body. -/
inductive ApiResult where
  | response (content : String) : ApiResult
  | error (msg : String) : ApiResult
deriving DecidableEq, Repr

/-- HTTP outcome of an endpoint: a 200 response carrying the envelope, or
an error status with a detail message (`HTTPException`, or the framework's
500 page for an uncaught exception). -/
inductive HResp where
  | ok (body : ApiResult) : HResp
  | err (status : Nat) (detail : String) : HResp
deriving DecidableEq, Repr

/-! ### The functions of `main.py` -/

/-- `verify_access_token`: raise 401 unless the presented token equals the
stored `ACCESS_TOKEN` (both may be absent). -/
def verify_access_token (stored token : Option String) : Except (Nat × String) Unit :=
  if token ≠ stored then Except.error (401, "Invalid or missing access token")
  else Except.ok ()

/-- `create_completion`: issue exactly one provider call; wrap success as
`{"response": content}` and any raised exception as `{"error": str(e)}`.
The second component is the trace of provider calls issued. -/
def create_completion (provider : Provider) (messages : List Message) :
    ApiResult × List CompletionRequest :=
  let req := mkRequest messages
  match provider req with
  | Except.ok content => (ApiResult.response content, [req])
  | Except.error e => (ApiResult.error e, [req])

/-- The fixed image-suitability system prompt of `call_gpt4_vision`. -/
def image_prompt : String :=
  "Check if the profile picture meets these requirements: real photo (not AI generated), one clear face, good quality, no logos/copyrighted material, no impersonation, no NSFW/NSFL content, no overlays, appropriate clothing (shirt/pants), facing camera, professional pose, non-distracting background. Respond \"true\" if all met; otherwise, \"false\" with a brief reason. Ignore stock watermarks."

/-- The data URL wrapped around every base64 image string. -/
def imageDataUrl (s : String) : String := "data:image/jpeg;base64," ++ s

/-- The system message of the vision path. -/
def systemImageMessage : Message :=
  { role := "system", content := Content.parts [ContentPart.text image_prompt] }

/-- One user message carrying one image as a data URL. -/
def imageMessage (s : String) : Message :=
  { role := "user", content := Content.parts [ContentPart.imageUrl (imageDataUrl s)] }

/-- The message list assembled by `call_gpt4_vision`: the system prompt
followed by one image message per element. -/
def visionMessages (base64_images : List String) : List Message :=
  systemImageMessage :: base64_images.map imageMessage

/-- `call_gpt4_vision`: assemble the vision messages and call the provider
through `create_completion`. -/
def call_gpt4_vision (provider : Provider) (base64_images : List String) :
    ApiResult × List CompletionRequest :=
  create_completion provider (visionMessages base64_images)

/-- The fixed text-suitability system prompt of `analyze_text`. -/
def text_prompt : String :=
  "The attached text is a \"reason for calling\" in an application. Check if the text meets these requirements: is appropriate for business, family, or friend interactions; does not contain inappropriate, offensive, harassing, threatening, or explicit content; can be any language and use respectful slang. Respond OK if all met; otherwise, Not OK with a brief reason."

/-- The two messages assembled by `analyze_text`. -/
def textMessages (text : String) : List Message :=
  [{ role := "system", content := Content.str text_prompt },
   { role := "user", content := Content.str text }]

/-- `POST /analyze`: guard, read the upload, base64-encode it, call the
vision path with that single image. -/
def analyze_image (provider : Provider) (stored token : Option String)
    (fileBytes : List Nat) : HResp × List CompletionRequest :=
  match verify_access_token stored token with
  | Except.error sd => (HResp.err sd.1 sd.2, [])
  | Except.ok _ =>
      let base64_image := b64encode fileBytes
      let rc := call_gpt4_vision provider [base64_image]
      (HResp.ok rc.1, rc.2)

/-- `POST /analyze-json`: guard, fetch `images_base64` (default `[]`),
raise 400 when it is falsy, otherwise iterate it and send every element as
an image. A truthy non-iterable value raises an uncaught `TypeError`,
which the framework surfaces as a 500 — before any provider call, since
the messages being assembled are never sent. -/
def analyze_image_json (provider : Provider) (stored token : Option String)
    (payload : List (String × Json)) : HResp × List CompletionRequest :=
  match verify_access_token stored token with
  | Except.error sd => (HResp.err sd.1 sd.2, [])
  | Except.ok _ =>
      let base64_images := (payload.lookup "images_base64").getD (Json.arr [])
      if pyTruthy base64_images = false then
        (HResp.err 400 "Missing images_base64 in request body", [])
      else
        match pyIter base64_images with
        | some elems =>
            let rc := call_gpt4_vision provider (elems.map pyStr)
            (HResp.ok rc.1, rc.2)
        | none => (HResp.err 500 "Internal Server Error", [])

/-- `POST /analyze_text`: guard, then send the fixed text system prompt and
the caller's text. -/
def analyze_text (provider : Provider) (stored token : Option String)
    (text : String) : HResp × List CompletionRequest :=
  match verify_access_token stored token with
  | Except.error sd => (HResp.err sd.1 sd.2, [])
  | Except.ok _ =>
      let rc := create_completion provider (textMessages text)
      (HResp.ok rc.1, rc.2)

/-! ### Observations on assembled messages -/

/-- The characters of the fixed data-URL label. -/
def dataUrlChars : List Char := "data:image/jpeg;base64,".data

/-- Whether the first list is an initial segment of the second. -/
def startsWithChars : List Char → List Char → Bool
  | [], _ => true
  | _ :: _, [] => false
  | p :: ps, c :: cs => p == c && startsWithChars ps cs

/-- Whether a URL starts with the fixed `data:image/jpeg;base64,` label. -/
def isDataUrl (u : String) : Bool := startsWithChars dataUrlChars u.data

/-- The image URLs occurring in a content-part list. -/
def partUrlsList : List ContentPart → List String
  | [] => []
  | ContentPart.text _ :: rest => partUrlsList rest
  | ContentPart.imageUrl u :: rest => u :: partUrlsList rest

/-- The image URLs occurring in a message content. -/
def contentUrls : Content → List String
  | Content.str _ => []
  | Content.parts ps => partUrlsList ps

/-- All image URLs occurring in a message list. -/
def imageUrlsOf : List Message → List String
  | [] => []
  | m :: rest => contentUrls m.content ++ imageUrlsOf rest

/-- The result envelope rendered as the JSON object the caller receives. -/
def envelopeJson : ApiResult → Json
  | ApiResult.response s => Json.obj [("response", Json.str s)]
  | ApiResult.error s => Json.obj [("error", Json.str s)]

/-- The `∃ status violation_reason` object shape named by the spec's data
model section. -/
def isStatusShape (j : Json) : Prop :=
  ∃ b r, j = Json.obj [("status", Json.bool b), ("violation_reason", Json.str r)]

/-- The `∃ error` object shape. -/
def isErrorShape (j : Json) : Prop := ∃ s, j = Json.obj [("error", Json.str s)]

/-- The `∃ response` object shape. -/
def isResponseShape (j : Json) : Prop := ∃ s, j = Json.obj [("response", Json.str s)]

/-- A sample provider whose every call succeeds with a fixed content
string; used to instantiate universally quantified results. -/
def okProvider : Provider := fun _ => Except.ok "compliant"

/-! ### Helper lemmas -/

/-- Decoding inverts encoding on every 6-bit group. -/
theorem decode6_encode6 (n : Nat) (h : n < 64) : decode6 (encode6 n) = some n := by
  have h64 : ∀ i : Fin 64, decode6 (encode6 i.val) = some i.val := by decide
  exact h64 ⟨n, h⟩

/-- No 6-bit group encodes to the padding character. -/
theorem encode6_ne_pad (n : Nat) (h : n < 64) : encode6 n ≠ '=' := by
  have h64 : ∀ i : Fin 64, encode6 i.val ≠ '=' := by decide
  exact h64 ⟨n, h⟩

/-- Chunk-level base64 decoding inverts chunk-level encoding. -/
theorem decodeChunks_encodeChunks (bs : List Nat) (h : ∀ b ∈ bs, b < 256) :
    decodeChunks (encodeChunks bs) = some bs := by
  induction bs using encodeChunks.induct with
  | case1 => rfl
  | case2 a =>
      have ha : a < 256 := h a (by simp)
      simp only [encodeChunks, decodeChunks,
        decode6_encode6 (a / 4) (by omega),
        decode6_encode6 (a % 4 * 16) (by omega)]
      simp only [and_self, reduceIte, true_and, if_true]
      norm_num
      omega
  | case3 a b =>
      have ha : a < 256 := h a (by simp)
      have hb : b < 256 := h b (by simp)
      simp only [encodeChunks, decodeChunks,
        decode6_encode6 (a / 4) (by omega),
        decode6_encode6 (a % 4 * 16 + b / 16) (by omega),
        decode6_encode6 (b % 16 * 4) (by omega)]
      have h3 : encode6 (b % 16 * 4) ≠ '=' := encode6_ne_pad _ (by omega)
      simp only [h3, false_and, and_false, if_false, and_self, if_true, reduceIte]
      norm_num
      omega
  | case4 a b c rest ih =>
      have ha : a < 256 := h a (by simp)
      have hb : b < 256 := h b (by simp)
      have hc : c < 256 := h c (by simp)
      have hrest : ∀ x ∈ rest, x < 256 := fun x hx => h x (by simp [hx])
      have h3 : encode6 (b % 16 * 4 + c / 64) ≠ '=' := encode6_ne_pad _ (by omega)
      have h4 : encode6 (c % 64) ≠ '=' := encode6_ne_pad _ (by omega)
      simp only [encodeChunks, decodeChunks,
        decode6_encode6 (a / 4) (by omega),
        decode6_encode6 (a % 4 * 16 + b / 16) (by omega),
        decode6_encode6 (b % 16 * 4 + c / 64) (by omega),
        decode6_encode6 (c % 64) (by omega),
        h3, h4, false_and, and_false, if_false, ih hrest]
      norm_num
      omega

/-- Base64 decoding inverts base64 encoding on every byte list. -/
theorem b64_roundtrip (bs : List Nat) (h : ∀ b ∈ bs, b < 256) :
    b64decode (b64encode bs) = some bs := by
  simpa [b64encode, b64decode] using decodeChunks_encodeChunks bs h

/-- A list is an initial segment of itself followed by anything. -/
theorem startsWithChars_append (p l : List Char) : startsWithChars p (p ++ l) = true := by
  induction p with
  | nil => rfl
  | cons c cs ih => simp [startsWithChars, ih]

/-- The characters of a data URL are the label followed by the payload. -/
theorem imageDataUrl_data (s : String) : (imageDataUrl s).data = dataUrlChars ++ s.data := by
  cases s with
  | mk l => rfl

/-- Every data URL built by the code carries the fixed JPEG label. -/
theorem isDataUrl_imageDataUrl (s : String) : isDataUrl (imageDataUrl s) = true := by
  rw [isDataUrl, imageDataUrl_data]
  exact startsWithChars_append _ _

/-- The image URLs of the vision message list are exactly the data URLs of
its images, in order. -/
theorem imageUrlsOf_vision (imgs : List String) :
    imageUrlsOf (visionMessages imgs) = imgs.map imageDataUrl := by
  have haux : ∀ l : List String,
      imageUrlsOf (l.map imageMessage) = l.map imageDataUrl := by
    intro l
    induction l with
    | nil => rfl
    | cons s rest ih => simp [imageUrlsOf, imageMessage, contentUrls, partUrlsList, ih]
  simp [visionMessages, imageUrlsOf, systemImageMessage, contentUrls, partUrlsList, haux]

/-- `create_completion` issues exactly one provider call, carrying its
message list, whatever the provider does. -/
theorem create_completion_calls (provider : Provider) (messages : List Message) :
    (create_completion provider messages).2 = [mkRequest messages] := by
  cases hp : provider (mkRequest messages) <;> simp [create_completion, hp]

/-- Every image URL of a vision message list carries the JPEG label. -/
theorem all_isDataUrl_vision (imgs : List String) :
    (imageUrlsOf (visionMessages imgs)).all isDataUrl = true := by
  rw [imageUrlsOf_vision]
  simp only [List.all_eq_true, List.mem_map, forall_exists_index, and_imp]
  rintro u s hs rfl
  exact isDataUrl_imageDataUrl s

/-! ### The claims -/

/-- Claim C1: for every request to `POST /analyze`, `POST /analyze-json` or
`POST /analyze_text` whose presented token does not exactly equal the
configured secret (including an absent token), the endpoint fails with
HTTP 401 and the fixed detail message, and the provider-call trace is
empty — zero provider calls, uniformly in the upload bytes, payload and
text, so none of them is examined. -/
theorem endpoints_reject_nonmatching_token (provider : Provider)
    (stored token : Option String) (bs : List Nat)
    (payload : List (String × Json)) (text : String) (h : token ≠ stored) :
    analyze_image provider stored token bs
        = (HResp.err 401 "Invalid or missing access token", [])
    ∧ analyze_image_json provider stored token payload
        = (HResp.err 401 "Invalid or missing access token", [])
    ∧ analyze_text provider stored token text
        = (HResp.err 401 "Invalid or missing access token", []) := by
  refine ⟨?_, ?_, ?_⟩ <;>
    simp [analyze_image, analyze_image_json, analyze_text, verify_access_token, h]

/-- Claim C1, instantiated: an absent token against the secret `"secret"`
is rejected by all three endpoints with no provider call. -/
theorem endpoints_reject_nonmatching_token_check :
    analyze_image okProvider (some "secret") none [1]
        = (HResp.err 401 "Invalid or missing access token", [])
    ∧ analyze_image_json okProvider (some "secret") none []
        = (HResp.err 401 "Invalid or missing access token", [])
    ∧ analyze_text okProvider (some "secret") none "hi"
        = (HResp.err 401 "Invalid or missing access token", []) :=
  endpoints_reject_nonmatching_token okProvider (some "secret") none [1] [] "hi" (by decide)

/-- Claim C2: `create_completion` never fails its caller: it returns exactly
`error (str e)` when the provider call raises `e` and exactly
`response c` — the raw first-choice content, unmodified — when it
succeeds; and every authorized endpoint wraps that envelope in an HTTP 200
response (`HResp.ok`), never an HTTP 5xx, whatever the provider does. -/
theorem create_completion_never_raises (provider : Provider) (messages : List Message)
    (stored : Option String) (text : String) (bs : List Nat) :
    create_completion provider messages =
      ((match provider (mkRequest messages) with
        | Except.ok c => ApiResult.response c
        | Except.error e => ApiResult.error e), [mkRequest messages])
    ∧ (analyze_text provider stored stored text).1
        = HResp.ok (create_completion provider (textMessages text)).1
    ∧ (analyze_image provider stored stored bs).1
        = HResp.ok (create_completion provider (visionMessages [b64encode bs])).1
    ∧ (analyze_image_json provider stored stored
          [("images_base64", Json.arr [Json.str text])]).1
        = HResp.ok (create_completion provider (visionMessages [text])).1 := by
  refine ⟨?_, ?_, ?_, ?_⟩
  · cases hp : provider (mkRequest messages) <;> simp [create_completion, hp]
  · simp [analyze_text, verify_access_token]
  · simp [analyze_image, verify_access_token, call_gpt4_vision]
  · simp [analyze_image_json, verify_access_token, call_gpt4_vision, pyTruthy, pyIter,
          pyStr, List.lookup]

/-- Claim C3: an authorized `POST /analyze-json` whose body has a missing
`images_base64` field, or an empty one, returns HTTP 400 with the fixed
detail and issues no provider call. -/
theorem analyze_json_missing_or_empty_images (provider : Provider)
    (stored : Option String) (payload : List (String × Json))
    (h : payload.lookup "images_base64" = none
         ∨ payload.lookup "images_base64" = some (Json.arr [])) :
    analyze_image_json provider stored stored payload
      = (HResp.err 400 "Missing images_base64 in request body", []) := by
  rcases h with h | h <;> simp [analyze_image_json, verify_access_token, h, pyTruthy]

/-- Claim C3, instantiated: an empty JSON object body yields HTTP 400 and
no provider call. -/
theorem analyze_json_missing_or_empty_images_check :
    analyze_image_json okProvider (some "s") (some "s") []
      = (HResp.err 400 "Missing images_base64 in request body", []) :=
  analyze_json_missing_or_empty_images okProvider (some "s") [] (Or.inl rfl)

/-- Claim C4: an authorized `POST /analyze-json` whose `images_base64` is a
one-element list of base64 strings issues exactly one provider call — the
trace is one request — carrying the system image-suitability prompt first
and exactly one image message. -/
theorem analyze_json_single_image_one_call (provider : Provider)
    (stored : Option String) (payload : List (String × Json)) (s : String)
    (h : payload.lookup "images_base64" = some (Json.arr [Json.str s])) :
    analyze_image_json provider stored stored payload
      = (HResp.ok (create_completion provider [systemImageMessage, imageMessage s]).1,
         [mkRequest [systemImageMessage, imageMessage s]]) := by
  have hcalls := create_completion_calls provider [systemImageMessage, imageMessage s]
  simp only [analyze_image_json, verify_access_token]
  simp [h, pyTruthy, pyIter, pyStr, call_gpt4_vision, visionMessages, hcalls]

/-- Claim C4, instantiated at a concrete base64 string. -/
theorem analyze_json_single_image_one_call_check :
    analyze_image_json okProvider (some "secret") (some "secret")
        [("images_base64", Json.arr [Json.str "aGVsbG8="])]
      = (HResp.ok (create_completion okProvider
            [systemImageMessage, imageMessage "aGVsbG8="]).1,
         [mkRequest [systemImageMessage, imageMessage "aGVsbG8="]]) :=
  analyze_json_single_image_one_call okProvider (some "secret")
    [("images_base64", Json.arr [Json.str "aGVsbG8="])] "aGVsbG8=" rfl

/-- Claim C5: an authorized `POST /analyze_text` issues exactly one provider
call carrying exactly two messages — the fixed text-suitability system
prompt and a user message with the caller's text — where the text prompt
differs from the image prompt and the messages carry no image content. -/
theorem analyze_text_exactly_two_messages (provider : Provider)
    (stored : Option String) (text : String) :
    analyze_text provider stored stored text
      = (HResp.ok (create_completion provider (textMessages text)).1,
         [mkRequest (textMessages text)])
    ∧ textMessages text
        = [{ role := "system", content := Content.str text_prompt },
           { role := "user", content := Content.str text }]
    ∧ text_prompt ≠ image_prompt
    ∧ imageUrlsOf (textMessages text) = [] := by
  refine ⟨?_, rfl, by decide, rfl⟩
  simp [analyze_text, verify_access_token, create_completion_calls]

/-- Claim C6, counterexample: a successful provider call produces the
envelope `(response "compliant")`, whose JSON shape is neither
`(status, violation_reason)` nor `(error)` — the claim's "no other shape
is ever returned" fails on the success path. -/
theorem complianceResult_status_shape_cex :
    ¬ (isStatusShape (envelopeJson (create_completion okProvider (textMessages "hello")).1)
       ∨ isErrorShape (envelopeJson (create_completion okProvider (textMessages "hello")).1)) := by
  have hval : (create_completion okProvider (textMessages "hello")).1
      = ApiResult.response "compliant" := rfl
  rw [hval]
  rintro (⟨b, r, hb⟩ | ⟨s, hb⟩) <;> simp [envelopeJson, isStatusShape, isErrorShape] at hb

/-- Claim C6, amended: every result returned to the caller is an envelope
of exactly one of two shapes — `(response string)` on success or
`(error string)` on failure; the `(status, violation_reason)` object is
the schema of the JSON string carried inside `response`, not the envelope
itself. -/
theorem complianceResult_envelope_shapes (provider : Provider) (messages : List Message) :
    isResponseShape (envelopeJson (create_completion provider messages).1)
    ∨ isErrorShape (envelopeJson (create_completion provider messages).1) := by
  cases hp : provider (mkRequest messages) with
  | ok c => exact Or.inl ⟨c, by simp [create_completion, hp, envelopeJson]⟩
  | error e => exact Or.inr ⟨e, by simp [create_completion, hp, envelopeJson]⟩

/-- Claim C7: the single-image path alters the uploaded bytes only by
base64 transcoding — the one image sent is exactly `b64encode` of the
upload, and base64-decoding that encoding recovers exactly the original
bytes, for every byte sequence. -/
theorem analyze_image_base64_roundtrip (provider : Provider) (stored : Option String)
    (bs : List Nat) (h : ∀ b ∈ bs, b < 256) :
    (analyze_image provider stored stored bs).2
        = [mkRequest (visionMessages [b64encode bs])]
    ∧ b64decode (b64encode bs) = some bs := by
  refine ⟨?_, b64_roundtrip bs h⟩
  simp [analyze_image, verify_access_token, call_gpt4_vision, create_completion_calls]

/-- Claim C7, instantiated at the bytes `[72, 105]` (`"Hi"`). -/
theorem analyze_image_base64_roundtrip_check :
    (analyze_image okProvider (some "t") (some "t") [72, 105]).2
        = [mkRequest (visionMessages [b64encode [72, 105]])]
    ∧ b64decode (b64encode [72, 105]) = some [72, 105] :=
  analyze_image_base64_roundtrip okProvider (some "t") [72, 105] (by decide)

/-- Claim C8: when the configured secret is absent (`none`), a request
presenting no token passes the guard — absent token and absent secret
compare equal — and the endpoints proceed as authorized, so the service is
effectively unauthenticated. -/
theorem absent_secret_makes_endpoints_open (provider : Provider) (bs : List Nat)
    (text : String) :
    verify_access_token none none = Except.ok ()
    ∧ analyze_text provider none none text
        = (HResp.ok (create_completion provider (textMessages text)).1,
           [mkRequest (textMessages text)])
    ∧ (analyze_image provider none none bs).1
        = HResp.ok (call_gpt4_vision provider [b64encode bs]).1 := by
  refine ⟨rfl, ?_, ?_⟩ <;>
    simp [analyze_text, analyze_image, verify_access_token, create_completion_calls]

/-- Claim C9: `POST /analyze-json` never checks that `images_base64` is a
list: every falsy field value (and in particular `[]`, `""`, `null`, `0`)
triggers the HTTP 400 branch, every truthy value passes that branch, and a
non-empty string is iterated character by character, producing one image
message per character after the system prompt. -/
theorem analyze_json_field_not_validated_as_list (provider : Provider)
    (stored : Option String) (payload : List (String × Json)) (s : String)
    (hs : s ≠ "") :
    (∀ v, payload.lookup "images_base64" = some v → pyTruthy v = false →
        analyze_image_json provider stored stored payload
          = (HResp.err 400 "Missing images_base64 in request body", []))
    ∧ pyTruthy (Json.arr []) = false
    ∧ pyTruthy (Json.str "") = false
    ∧ pyTruthy Json.null = false
    ∧ pyTruthy (Json.num 0) = false
    ∧ (∀ v, payload.lookup "images_base64" = some v → pyTruthy v = true →
        (analyze_image_json provider stored stored payload).1
          ≠ HResp.err 400 "Missing images_base64 in request body")
    ∧ (payload.lookup "images_base64" = some (Json.str s) →
        (analyze_image_json provider stored stored payload).2
          = [mkRequest (visionMessages (s.data.map String.singleton))]) := by
  refine ⟨?_, rfl, rfl, rfl, rfl, ?_, ?_⟩
  · intro v hv htruthy
    simp [analyze_image_json, verify_access_token, hv, htruthy]
  · intro v hv htruthy
    cases hit : pyIter v with
    | some elems =>
        simp [analyze_image_json, verify_access_token, hv, htruthy, hit]
    | none =>
        simp [analyze_image_json, verify_access_token, hv, htruthy, hit]
  · intro hv
    have htr : pyTruthy (Json.str s) = true := by simp [pyTruthy, hs]
    simp [analyze_image_json, verify_access_token, hv, htr, pyIter, pyStr,
          call_gpt4_vision, create_completion_calls, List.map_map, Function.comp_def,
          visionMessages]

/-- Claim C9, instantiated: the string field `"ab"` produces one provider
call whose images are the characters `"a"` and `"b"`. -/
theorem analyze_json_field_not_validated_as_list_check :
    (analyze_image_json okProvider (some "k") (some "k")
        [("images_base64", Json.str "ab")]).2
      = [mkRequest (visionMessages ("ab".data.map String.singleton))] :=
  (analyze_json_field_not_validated_as_list okProvider (some "k")
      [("images_base64", Json.str "ab")] "ab" (by decide)).2.2.2.2.2.2 rfl

/-- Claim C10: every image URL sent to the provider, on both the
file-upload path and the pre-encoded JSON path, starts with the fixed
label `data:image/jpeg;base64,` — always JPEG, whatever the bytes were. -/
theorem images_always_labeled_jpeg (provider : Provider) (stored token : Option String)
    (bs : List Nat) (payload : List (String × Json)) :
    ((analyze_image provider stored token bs).2.all
        (fun req => (imageUrlsOf req.messages).all isDataUrl)) = true
    ∧ ((analyze_image_json provider stored token payload).2.all
        (fun req => (imageUrlsOf req.messages).all isDataUrl)) = true := by
  constructor
  · cases hv : verify_access_token stored token with
    | error sd => simp [analyze_image, hv]
    | ok u =>
        simp [analyze_image, hv, call_gpt4_vision, create_completion_calls,
              mkRequest, all_isDataUrl_vision]
  · cases hv : verify_access_token stored token with
    | error sd => simp [analyze_image_json, hv]
    | ok u =>
        simp only [analyze_image_json, hv]
        split
        · rfl
        · cases hit : pyIter ((payload.lookup "images_base64").getD (Json.arr [])) with
          | some elems =>
              simp [hit, call_gpt4_vision, create_completion_calls, mkRequest,
                    all_isDataUrl_vision]
          | none => simp [hit]
